import Mathlib

/-!
Shallow embedding of `eureka/S5_lightcurve_fitting/models/PyMC3Models.py`
(class `StarryModel`), covering: the required-parameter check and the
prior-construction loop of `__init__` (lines 39-72), the limb-darkening
dispatch of `__init__` (lines 74-97) and of the `fit_dict` setter
(lines 316-338), the systematics-coefficient decoding and evaluation of
`syseval` in both its `eval=True` (lines 205-243) and `eval=False`
(lines 244-282) branches, and the composite evaluation `eval`
(lines 201-202).

Numeric values are idealized as exact rationals (coefficient tables,
where the code compares values to zero) and reals (flux evaluation,
where the code uses `exp`); machine floats are not modelled.
-/

/-! ## Python string primitives

Helpers mirroring the Python string operations the decoder uses, written
over the character list of a `String` so that they reduce by `decide`.
-/

/-- One step of splitting a character list on a separator; used to model
Python's `str.split(sep)` for a one-character separator. -/
def splitStep (sep : Char) (ch : Char) (acc : List (List Char)) : List (List Char) :=
  if ch = sep then [] :: acc
  else
    match acc with
    | [] => [[ch]]
    | g :: gs => (ch :: g) :: gs

/-- Python `s.split(sep)` for a one-character separator `sep`; in
particular `pySplit '_' "" = [""]`, matching `''.split('_') == ['']`. -/
def pySplit (sep : Char) (s : String) : List String :=
  (s.data.foldr (splitStep sep) [[]]).map String.mk

/-- Python `s.isdigit()` (restricted to ASCII digit strings): true when
`s` is nonempty and every character is a decimal digit. -/
def pyIsDigit (s : String) : Bool :=
  !s.data.isEmpty && s.data.all Char.isDigit

/-- Python `int(s)` on a decimal-digit string. -/
def pyInt (s : String) : ℕ :=
  s.data.foldl (fun n c => 10 * n + (c.toNat - 48)) 0

/-- Python `s.lower().startswith(c)` for a one-character, lowercase `c`. -/
def startsWithLower (s : String) (c : Char) : Bool :=
  match s.data with
  | [] => false
  | a :: _ => a.toLower == c

/-- Python `s[1:]`: drop the first character. -/
def pyDrop1 (s : String) : String :=
  String.mk (s.data.drop 1)

/-! ## Coefficient tables and the channel coefficient decoder

The decoder below embeds the two identical name-parsing loops of
`StarryModel.syseval`: over `self.fit_dict.items()` in the `eval=True`
branch (lines 210-226) and over `self.paramtitles` with
`getattr(self, ...)` values in the `eval=False` branch (lines 249-265).
Both are represented as one fold over `(name, value)` pairs.
-/

/-- A per-channel coefficient table: the code allocates
`np.zeros((nchan, 10))` for polynomial coefficients and
`np.zeros((nchan, 6))` for ramp coefficients. -/
abbrev Table := List (List ℚ)

/-- Table write `tbl[i][j] = v` (`List.set`, in-bounds in every use the
theorems below make). -/
def setTable (tbl : Table) (i j : ℕ) (v : ℚ) : Table :=
  tbl.set i ((tbl.getD i []).set j v)

/-- Lines 211-218 / 250-257: the `c`-family branch. `k` is the name with
the leading letter already stripped; `remvisnum = k.split('_')`; a
pure-digit `k` writes `poly[0][int(k)] = v`, otherwise a two-part
numeric split with `nchan > 1` writes
`poly[int(remvisnum[1])][int(remvisnum[0])] = v`. -/
def decodeC (nchan : ℕ) (poly : Table) (k : String) (v : ℚ) : Table :=
  let remvisnum := pySplit '_' k
  if pyIsDigit k then setTable poly 0 (pyInt k) v
  else if remvisnum.length > 1 ∧ nchan > 1 then
    if pyIsDigit (remvisnum.getD 0 ("")) ∧ pyIsDigit (remvisnum.getD 1 ("")) then
      setTable poly (pyInt (remvisnum.getD 1 (""))) (pyInt (remvisnum.getD 0 (""))) v
    else poly
  else poly

/-- Lines 219-226 / 258-265: the `r`-family branch. Unlike the
`c`-family branch, the source computes `remvisnum = k[1:].split('_')`
(lines 221 and 260): one more character is dropped from `k` before
splitting on the underscore. -/
def decodeR (nchan : ℕ) (ramp : Table) (k : String) (v : ℚ) : Table :=
  let remvisnum := pySplit '_' (pyDrop1 k)
  if pyIsDigit k then setTable ramp 0 (pyInt k) v
  else if remvisnum.length > 1 ∧ nchan > 1 then
    if pyIsDigit (remvisnum.getD 0 ("")) ∧ pyIsDigit (remvisnum.getD 1 ("")) then
      setTable ramp (pyInt (remvisnum.getD 1 (""))) (pyInt (remvisnum.getD 0 (""))) v
    else ramp
  else ramp

/-- Dispatch on the leading letter of a parameter name:
`k.lower().startswith('c')` routes to the polynomial table,
`elif k.lower().startswith('r')` to the ramp table, anything else is
skipped with no write and no error. -/
def decodeStep (nchan : ℕ) (acc : Table × Table) (kv : String × ℚ) : Table × Table :=
  if startsWithLower kv.1 'c' then (decodeC nchan acc.1 (pyDrop1 kv.1) kv.2, acc.2)
  else if startsWithLower kv.1 'r' then (acc.1, decodeR nchan acc.2 (pyDrop1 kv.1) kv.2)
  else acc

/-- The full decoding loop of `syseval`: starting from
`np.zeros((nchan, 10))` and `np.zeros((nchan, 6))`, fold the parameter
name/value pairs through `decodeStep`. -/
def decodeCoeffs (nchan : ℕ) (fitDict : List (String × ℚ)) : Table × Table :=
  fitDict.foldl (decodeStep nchan)
    (List.replicate nchan (List.replicate 10 0), List.replicate nchan (List.replicate 6 0))

/-! ## Systematics evaluation

The two branches of `StarryModel.syseval`. The `eval=True` branch
(lines 228-243) trims the polynomial table with
`poly_coeffs[:, ~np.all(poly_coeffs == 0, axis=0)]`, flips it with
`np.flip(..., axis=1)`, and evaluates each channel row through
`np.poly1d` / `np.polyval` at `time - time.mean()`; the `eval=False`
branch (lines 267-282) sums `coeff * time_poly**power` over all ten
columns with no trimming. Both multiply by the same double-exponential
ramp evaluated at `time - time[0]` and concatenate channels in order.
-/

/-- Column `j` of the table is zero in every channel:
`np.all(poly_coeffs == 0, axis=0)` for one column. -/
def colAllZero (tbl : Table) (j : ℕ) : Bool :=
  tbl.all (fun row => row.getD j 0 == 0)

/-- Line 228, `poly_coeffs[:, ~np.all(poly_coeffs == 0, axis=0)]`: keep,
in each row, exactly the columns that are nonzero in some channel. -/
def trimCols (tbl : Table) : Table :=
  tbl.map (fun row => ((List.range 10).filter (fun j => !colAllZero tbl j)).map
    (fun j => row.getD j 0))

/-- Line 229, `np.flip(poly_coeffs, axis=1)`: reverse every row, putting
the surviving coefficients highest-kept-column first. -/
def flipRows (tbl : Table) : Table :=
  tbl.map List.reverse

/-- Leading-zero trimming performed inside the `np.poly1d` constructor
(`trim_zeros(c_or_r, trim='f')`). -/
def dropLeadingZeroCoeffs : List ℚ → List ℚ
  | [] => []
  | a :: r => if a = 0 then dropLeadingZeroCoeffs r else a :: r

/-- The coefficient list stored by `np.poly1d`: front zeros trimmed, and
an empty result replaced by the single coefficient `[0]`. -/
def poly1dCoeffs (p : List ℚ) : List ℚ :=
  match dropLeadingZeroCoeffs p with
  | [] => [0]
  | t => t

/-- Horner evaluation of `np.polyval` on a highest-degree-first
coefficient list: `y = y * x + p[i]` over the list. -/
def polyval (p : List ℚ) (x : ℝ) : ℝ :=
  p.foldl (fun y a => y * x + (a : ℝ)) 0

/-- Mean of the time array, `self.time.mean()`. -/
noncomputable def meanTime (time : List ℝ) : ℝ :=
  time.sum / time.length

/-- Lines 230-234: the `eval=True` polynomial flux. Per channel,
evaluate `np.poly1d` of the trimmed-and-flipped row at
`time - time.mean()`, appending the channels in order. -/
noncomputable def polyFluxTrue (tbl : Table) (nchan : ℕ) (time : List ℝ) : List ℝ :=
  (List.range nchan).foldl
    (fun acc c => acc ++ time.map
      (fun t => polyval (poly1dCoeffs ((flipRows (trimCols tbl)).getD c [])) (t - meanTime time)))
    []

/-- Lines 267-273: the `eval=False` polynomial flux. Per channel, sum
`poly_coeffs[c][power] * time_poly ** power` over every column of the
untrimmed row, appending the channels in order. -/
noncomputable def polyFluxFalse (tbl : Table) (nchan : ℕ) (time : List ℝ) : List ℝ :=
  (List.range nchan).foldl
    (fun acc c => acc ++ time.map
      (fun t => (List.range (tbl.getD c []).length).foldl
        (fun lc power => lc + ((tbl.getD c []).getD power 0 : ℝ) * (t - meanTime time) ^ power)
        0))
    []

/-- Lines 239-240 / 278-279: one channel's ramp model at
`x = t - time[0]`, namely `r0*exp(-r1*x + r2) + r3*exp(-r4*x + r5) + 1`;
identical in both branches of `syseval`. -/
noncomputable def rampPiece (row : List ℚ) (x : ℝ) : ℝ :=
  (row.getD 0 0 : ℝ) * Real.exp (-(row.getD 1 0 : ℝ) * x + (row.getD 2 0 : ℝ))
    + (row.getD 3 0 : ℝ) * Real.exp (-(row.getD 4 0 : ℝ) * x + (row.getD 5 0 : ℝ)) + 1

/-- Lines 236-241 / 275-280: the ramp flux, evaluated per channel at
`time - time[0]` and concatenated in channel order. -/
noncomputable def rampFlux (tbl : Table) (nchan : ℕ) (time : List ℝ) : List ℝ :=
  (List.range nchan).foldl
    (fun acc c => acc ++ time.map (fun t => rampPiece (tbl.getD c []) (t - time.getD 0 0)))
    []

/-- The `eval=True` branch of `syseval` (lines 205-243): decode the
fitted name/value pairs, then return `poly_flux * ramp_flux`
elementwise. -/
noncomputable def sysevalTrue (nchan : ℕ) (fitDict : List (String × ℚ)) (time : List ℝ) : List ℝ :=
  List.zipWith (fun a b => a * b)
    (polyFluxTrue (decodeCoeffs nchan fitDict).1 nchan time)
    (rampFlux (decodeCoeffs nchan fitDict).2 nchan time)

/-- The `eval=False` branch of `syseval` (lines 244-282): same decoding
of name/value pairs, untrimmed polynomial evaluation, same ramp. -/
noncomputable def sysevalFalse (nchan : ℕ) (fitDict : List (String × ℚ)) (time : List ℝ) : List ℝ :=
  List.zipWith (fun a b => a * b)
    (polyFluxFalse (decodeCoeffs nchan fitDict).1 nchan time)
    (rampFlux (decodeCoeffs nchan fitDict).2 nchan time)

/-- Line 202, `StarryModel.eval`: the composite flux is the elementwise
product of the astrophysical flux (`physeval(eval=eval)[0]`, produced by
the external `starry` system) and the systematics flux (`syseval`). -/
def evalModel (physflux sysflux : List ℝ) : List ℝ :=
  List.zipWith (fun a b => a * b) physflux sysflux

/-! ## Parameter registry and model build

Embedding of `StarryModel.__init__` (lines 23-137). A parameter row
carries the fields the constructor reads: `name`, `ptype`, `prior`
(`'U'`, `'N'` or `'LU'`), the two prior parameters, and the fixed
`value`. The constructor's `setattr` calls are represented as an
association list from names to symbolic distributions; `getattr` /
`hasattr` become lookups, with later writes shadowing earlier ones.
-/

/-- One row of the parameter table (one attribute of `self.parameters`). -/
structure Param where
  name : String
  ptype : String
  prior : String
  priorpar1 : ℝ
  priorpar2 : ℝ
  value : ℝ

/-- The symbolic value bound to a model attribute by `__init__`:
`const` is `tt.constant(param.value)` (line 50); `uniform` is
`pm.Uniform(lower, upper)` (line 63); `boundedNormalLower0` is
`BoundedNormal_0 = pm.Bound(pm.Normal, lower=0.0)` (lines 19, 66);
`boundedNormalUpper90` is `BoundedNormal_90 = pm.Bound(pm.Normal,
upper=90.)` (lines 20, 68); `normal` is `pm.Normal(mu, sigma)`
(line 70); `expUniform` is `tt.exp(pm.Uniform(lower, upper))`
(line 72). -/
inductive PriorDist where
  | const (v : ℝ)
  | uniform (lower upper : ℝ)
  | boundedNormalLower0 (mu sigma : ℝ)
  | boundedNormalUpper90 (mu sigma : ℝ)
  | normal (mu sigma : ℝ)
  | expUniform (lower upper : ℝ)

/-- The exceptions `__init__` and the `fit_dict` setter can raise:
`missingParams` is the `AssertionError` of line 42 (carrying the list of
missing required names), `badPtype` the `ValueError` of line 61
(carrying the unrecognized ptype and the parameter name), `badLimbDark`
the `ValueError` of lines 96-97 / 337-338 (carrying the unrecognized
law), and `attributeError` a Python `AttributeError` on reading an
attribute that was never set. -/
inductive BuildError where
  | missingParams (names : List String)
  | badPtype (ptype name : String)
  | badLimbDark (law : String)
  | attributeError (name : String)

/-- Line 39: `required = np.array(['Ms', 'Mp', 'Rs'])`. -/
def requiredParams : List String := ["Ms", "Mp", "Rs"]

/-- Lines 40-42: the required names absent from `paramtitles`, in the
order of `requiredParams` (the content of the `AssertionError`). -/
def missingRequired (paramtitles : List String) : List String :=
  requiredParams.filter (fun name => decide (name ∉ paramtitles))

/-- Line 65: the names given a zero-lower-bounded normal prior. -/
def boundedLower0Names : List String :=
  ["rp", "per", "ecc", "scatter_mult", "scatter_ppm", "c0"]

/-- Lines 62-72: the prior-construction ladder for a free or shared
parameter. There is no `else` branch in the source: a prior string other
than `'U'`, `'N'` and `'LU'` constructs nothing (`none`). -/
def makePrior (parname : String) (prior : String) (p1 p2 : ℝ) : Option PriorDist :=
  if prior = "U" then some (.uniform p1 p2)
  else if prior = "N" then
    if parname ∈ boundedLower0Names then some (.boundedNormalLower0 p1 p2)
    else if parname ∈ ["inc"] then some (.boundedNormalUpper90 p1 p2)
    else some (.normal p1 p2)
  else if prior = "LU" then some (.expUniform p1 p2)
  else none

/-- Lines 47-72: one iteration of the parameter loop. `independent`
parameters are skipped (`continue`), `fixed` parameters bind a constant,
`free` and `shared` parameters bind the constructed prior when one is
recognized, and any other ptype raises the `ValueError` of line 61.
(The `shape` computed for free/shared parameters is dead: every
`shape=shape` argument in the source is commented out.) -/
def processParam (p : Param) : Except BuildError (Option (String × PriorDist)) :=
  if p.ptype = "independent" then .ok none
  else if p.ptype = "fixed" then .ok (some (p.name, .const p.value))
  else if p.ptype = "free" ∨ p.ptype = "shared" then
    .ok ((makePrior p.name p.prior p.priorpar1 p.priorpar2).map (fun d => (p.name, d)))
  else .error (.badPtype p.ptype p.name)

/-- Lines 45-72: the whole parameter loop, in table order, collecting
the attributes bound by `setattr` and stopping at the first raise. -/
def processParams : List Param → Except BuildError (List (String × PriorDist))
  | [] => .ok []
  | p :: rest => do
    let d ← processParam p
    let ds ← processParams rest
    match d with
    | some e => .ok (e :: ds)
    | none => .ok ds

/-- Python `getattr(self, n)` over the bound attributes, latest binding
winning; `none` models an `AttributeError`. -/
def getDist (dists : List (String × PriorDist)) (n : String) : Option PriorDist :=
  dists.foldl (fun acc kv => if kv.1 = n then some kv.2 else acc) none

/-- Attribute read that raises `AttributeError` when the name was never
bound. -/
def getDistE (dists : List (String × PriorDist)) (n : String) : Except BuildError PriorDist :=
  match getDist dists n with
  | some d => .ok d
  | none => .error (.attributeError n)

/-- Python `hasattr(self, n)` over the bound attributes. -/
def hasParam (dists : List (String × PriorDist)) (n : String) : Bool :=
  dists.any (fun kv => kv.1 == n)

/-- Lines 75-80: the limb-darkening degree of the stellar map, from the
presence of `u2` / `u1`. -/
def udegOf (dists : List (String × PriorDist)) : ℕ :=
  if hasParam dists ("u2") then 2
  else if hasParam dists ("u1") then 1
  else 0

/-- Which limb-darkening assignment the build performed on the stellar
map (`uniform` assigns nothing). -/
inductive LDResult where
  | assignKipping
  | assignQuadratic
  | assignLinear
  | assignNone

/-- Lines 84-97: the limb-darkening ladder of `__init__`, including the
attribute reads each recognized branch performs (`self.u1`, `self.u2`);
an unrecognized law raises the `ValueError` of lines 96-97. -/
def limbDarkInitStage (dists : List (String × PriorDist)) (law : String) :
    Except BuildError LDResult :=
  if law = "kipping2013" then do
    let _ ← getDistE dists ("u1")
    let _ ← getDistE dists ("u2")
    .ok .assignKipping
  else if law = "quadratic" then do
    let _ ← getDistE dists ("u1")
    let _ ← getDistE dists ("u2")
    .ok .assignQuadratic
  else if law = "linear" then do
    let _ ← getDistE dists ("u1")
    .ok .assignLinear
  else if law ≠ "uniform" then .error (.badLimbDark law)
  else .ok .assignNone

/-- The successfully built differentiable model: the bound attributes,
the stellar limb-darkening degree (lines 75-80), and the performed
limb-darkening assignment. -/
structure Model where
  dists : List (String × PriorDist)
  udeg : ℕ
  ld : LDResult

/-- `StarryModel.__init__` (lines 39-137): the required-parameter check,
the parameter loop, the star construction (reading `self.Ms`, `self.Rs`
at line 81), the limb-darkening ladder, and the planet construction
(reading `self.Mp`, `self.rp`, `self.Rs`, `self.a`, `self.inc`,
`self.ecc`, `self.w` at lines 110-121, then `self.per` at
lines 122-123). Any raise aborts the build with no partial model. -/
def buildStarryModel (params : List Param) (law : String) : Except BuildError Model :=
  if missingRequired (params.map Param.name) = [] then do
    let dists ← processParams params
    let _ ← getDistE dists ("Ms")
    let _ ← getDistE dists ("Rs")
    let ld ← limbDarkInitStage dists law
    let _ ← getDistE dists ("Mp")
    let _ ← getDistE dists ("rp")
    let _ ← getDistE dists ("Rs")
    let _ ← getDistE dists ("a")
    let _ ← getDistE dists ("inc")
    let _ ← getDistE dists ("ecc")
    let _ ← getDistE dists ("w")
    let _ ← getDistE dists ("per")
    .ok ⟨dists, udegOf dists, ld⟩
  else .error (.missingParams (missingRequired (params.map Param.name)))

/-! ## The concrete (fit-point) build

Embedding of the `fit_dict` setter (lines 301-382): the `fit` object's
attributes are concrete numbers, first the fitted values (lines 306-307)
and then the `fixed` parameter values (lines 309-314), later writes
shadowing earlier ones.
-/

/-- Python `getattr(fit, n)` over concrete attributes, latest binding
winning. -/
def getAttr (attrs : List (String × ℝ)) (n : String) : Option ℝ :=
  attrs.foldl (fun acc kv => if kv.1 = n then some kv.2 else acc) none

/-- Attribute read on the `fit` object that raises `AttributeError` when
absent. -/
def getAttrE (attrs : List (String × ℝ)) (n : String) : Except BuildError ℝ :=
  match getAttr attrs n with
  | some v => .ok v
  | none => .error (.attributeError n)

/-- Python `hasattr(fit, n)`. -/
def hasAttr (attrs : List (String × ℝ)) (n : String) : Bool :=
  attrs.any (fun kv => kv.1 == n)

/-- Lines 305-314: build the `fit` object's attributes from the fitted
point and the fixed parameters of the table. -/
def buildFitAttrs (fitDict : List (String × ℝ)) (params : List Param) : List (String × ℝ) :=
  fitDict ++ (params.filter (fun p => p.ptype == "fixed")).map (fun p => (p.name, p.value))

/-- The concrete stellar map built by the `fit_dict` setter: `udeg`
(lines 317-322) and the two limb-darkening map coefficients
`star.map[1]`, `star.map[2]` (0 when never assigned, the `starry`
default). -/
structure FitStar where
  udeg : ℕ
  map1 : ℝ
  map2 : ℝ

/-- Lines 316-338: the star of the concrete build. The `kipping2013`
branch (lines 325-330) assigns `map[1] = 2*sqrt(u1)*u2` and
`map[2] = sqrt(u1)*(1 - 2*u2)`; `linear` (331-332) assigns only
`map[1] = u1`; `quadratic` (333-335) assigns `map[1] = u1`,
`map[2] = u2`; any law other than those and `uniform` raises the
`ValueError` of lines 337-338. -/
noncomputable def buildFitStar (attrs : List (String × ℝ)) (law : String) : Except BuildError FitStar :=
  if law = "kipping2013" then do
    let u1 ← getAttrE attrs ("u1")
    let u2 ← getAttrE attrs ("u2")
    .ok ⟨if hasAttr attrs ("u2") then 2 else if hasAttr attrs ("u1") then 1 else 0,
         2 * Real.sqrt u1 * u2, Real.sqrt u1 * (1 - 2 * u2)⟩
  else if law = "linear" then do
    let u1 ← getAttrE attrs ("u1")
    .ok ⟨if hasAttr attrs ("u2") then 2 else if hasAttr attrs ("u1") then 1 else 0, u1, 0⟩
  else if law = "quadratic" then do
    let u1 ← getAttrE attrs ("u1")
    let u2 ← getAttrE attrs ("u2")
    .ok ⟨if hasAttr attrs ("u2") then 2 else if hasAttr attrs ("u1") then 1 else 0, u1, u2⟩
  else if law ≠ "uniform" then .error (.badLimbDark law)
  else .ok ⟨if hasAttr attrs ("u2") then 2 else if hasAttr attrs ("u1") then 1 else 0, 0, 0⟩

/-! ## Theorems -/

/-- The ptypes recognized by the parameter loop (lines 47-61). -/
def recognizedPtypes : List String := ["independent", "fixed", "free", "shared"]

/-- The limb-darkening laws both builds accept (lines 84-97, 325-338). -/
def recognizedLaws : List String := ["uniform", "linear", "quadratic", "kipping2013"]

lemma processParam_ok_of_recognized (q : Param) (h : q.ptype ∈ recognizedPtypes) :
    ∃ d, processParam q = .ok d := by
  simp only [recognizedPtypes, List.mem_cons, List.not_mem_nil, or_false] at h
  rcases h with h | h | h | h
  · exact ⟨none, by simp [processParam, h]⟩
  · exact ⟨some (q.name, .const q.value), by simp [processParam, h]⟩
  · exact ⟨(makePrior q.name q.prior q.priorpar1 q.priorpar2).map (fun d => (q.name, d)),
      by simp [processParam, h]⟩
  · exact ⟨(makePrior q.name q.prior q.priorpar1 q.priorpar2).map (fun d => (q.name, d)),
      by simp [processParam, h]⟩

lemma processParams_first_bad (pre post : List Param) (p : Param)
    (hpre : ∀ q ∈ pre, q.ptype ∈ recognizedPtypes) (hp : p.ptype ∉ recognizedPtypes) :
    processParams (pre ++ p :: post) = .error (.badPtype p.ptype p.name) := by
  induction pre with
  | nil =>
    have hbad : processParam p = .error (.badPtype p.ptype p.name) := by
      simp only [recognizedPtypes, List.mem_cons, List.not_mem_nil, or_false, not_or] at hp
      obtain ⟨h1, h2, h3, h4⟩ := hp
      unfold processParam
      rw [if_neg h1, if_neg h2, if_neg (by exact fun hor => hor.elim h3 h4)]
    simp only [List.nil_append, processParams, hbad]
    rfl
  | cons q pre ih =>
    obtain ⟨d0, hd0⟩ := processParam_ok_of_recognized q (hpre q (by simp))
    have ih2 := ih (fun r hr => hpre r (by simp [hr]))
    simp only [List.cons_append, processParams, hd0, List.append_eq, ih2]
    rfl

/-- Claim C10: a parameter whose ptype is none of independent, fixed,
free, shared makes the build raise a ValueError carrying the
unrecognized ptype and the parameter name, before any star, planet or
system object is constructed (the build aborts inside the parameter
loop with no model value). -/
theorem c10_unrecognized_ptype_raises (pre post : List Param) (p : Param) (law : String)
    (hreq : missingRequired ((pre ++ p :: post).map Param.name) = [])
    (hpre : ∀ q ∈ pre, q.ptype ∈ recognizedPtypes)
    (hp : p.ptype ∉ recognizedPtypes) :
    buildStarryModel (pre ++ p :: post) law = .error (.badPtype p.ptype p.name) := by
  unfold buildStarryModel
  rw [if_pos hreq, processParams_first_bad pre post p hpre hp]
  rfl

/-- Witness for C10 at a concrete table: three fixed required parameters
followed by a parameter of ptype `wobbly`. -/
theorem c10_unrecognized_ptype_raises_witness :
    buildStarryModel
        ([⟨"Ms", "fixed", "U", 0, 0, 1⟩, ⟨"Mp", "fixed", "U", 0, 0, 1⟩,
          ⟨"Rs", "fixed", "U", 0, 0, 1⟩] ++ ⟨"t0", "wobbly", "U", 0, 1, 0⟩ :: [])
        ("uniform")
      = .error (.badPtype ("wobbly") ("t0")) :=
  c10_unrecognized_ptype_raises
    [⟨"Ms", "fixed", "U", 0, 0, 1⟩, ⟨"Mp", "fixed", "U", 0, 0, 1⟩, ⟨"Rs", "fixed", "U", 0, 0, 1⟩]
    [] ⟨"t0", "wobbly", "U", 0, 1, 0⟩ ("uniform") (by decide) (by decide) (by decide)

/-- Claim C2: when any of the required names Ms, Mp, Rs is absent from
the parameter table, the build raises an error carrying exactly the
missing required names, before any model object is constructed, and no
partial model is returned (the result is the error, not a model). -/
theorem c2_missing_required_aborts_build (params : List Param) (law : String)
    (h : missingRequired (params.map Param.name) ≠ []) :
    buildStarryModel params law
        = .error (.missingParams (missingRequired (params.map Param.name)))
    ∧ ∀ r, r ∈ missingRequired (params.map Param.name)
        ↔ r ∈ requiredParams ∧ r ∉ params.map Param.name := by
  refine ⟨?_, ?_⟩
  · unfold buildStarryModel
    rw [if_neg h]
  · intro r
    simp [missingRequired, List.mem_filter]

/-- Witness for C2 at a concrete table containing only Mp: the build
errors with missing names Ms and Rs. -/
theorem c2_missing_required_aborts_build_witness :
    buildStarryModel [⟨"Mp", "fixed", "U", 0, 0, 1⟩] ("uniform")
        = .error (.missingParams
            (missingRequired (([⟨"Mp", "fixed", "U", 0, 0, 1⟩] : List Param).map Param.name)))
    ∧ ∀ r, r ∈ missingRequired (([⟨"Mp", "fixed", "U", 0, 0, 1⟩] : List Param).map Param.name)
        ↔ r ∈ requiredParams ∧ r ∉ ([⟨"Mp", "fixed", "U", 0, 0, 1⟩] : List Param).map Param.name :=
  c2_missing_required_aborts_build [⟨"Mp", "fixed", "U", 0, 0, 1⟩] ("uniform") (by decide)

/-- Claim C6 (code evaluated at the failing input): the ramp family does
not follow the polynomial family's grammar. With two channels, the name
`r1_1` (ramp term 1 of channel 1 under the claimed grammar) is silently
ignored — the ramp table stays all zero — because the source splits
`k[1:]` rather than `k`; the analogous polynomial name `c1_1` is
recorded at channel 1, degree 1, and single-channel `r3` is recorded at
term 3. -/
theorem c6_ramp_channel_suffix_dropped :
    (decodeCoeffs 2 [("r1_1", 5)]).2 = List.replicate 2 (List.replicate 6 (0 : ℚ))
    ∧ ((decodeCoeffs 2 [("c1_1", 5)]).1.getD 1 []).getD 1 0 = 5
    ∧ (decodeCoeffs 1 [("r3", 5)]).2 = [[0, 0, 0, 5, 0, 0]] := by
  decide

/-- Claim C5: for a non-fixed, non-independent (free or shared)
parameter the constructed distribution follows the prior table exactly:
prior `'U'` gives a uniform on [lower, upper]; prior `'N'` gives a
normal truncated to (0, ∞) when the name is one of rp, per, ecc,
scatter_mult, scatter_ppm, c0, a normal truncated to (−∞, 90] when the
name is inc, and an unconstrained normal otherwise; prior `'LU'` gives
the exponential of a uniform variable on [lower, upper]. -/
theorem c5_prior_construction_table (p : Param)
    (hfs : p.ptype = "free" ∨ p.ptype = "shared") :
    (p.prior = "U" →
      processParam p = .ok (some (p.name, .uniform p.priorpar1 p.priorpar2)))
    ∧ (p.prior = "N" → p.name ∈ boundedLower0Names →
      processParam p = .ok (some (p.name, .boundedNormalLower0 p.priorpar1 p.priorpar2)))
    ∧ (p.prior = "N" → p.name = "inc" →
      processParam p = .ok (some (p.name, .boundedNormalUpper90 p.priorpar1 p.priorpar2)))
    ∧ (p.prior = "N" → p.name ∉ boundedLower0Names → p.name ≠ "inc" →
      processParam p = .ok (some (p.name, .normal p.priorpar1 p.priorpar2)))
    ∧ (p.prior = "LU" →
      processParam p = .ok (some (p.name, .expUniform p.priorpar1 p.priorpar2))) := by
  have h1 : p.ptype ≠ "independent" := by rcases hfs with h | h <;> simp [h]
  have h2 : p.ptype ≠ "fixed" := by rcases hfs with h | h <;> simp [h]
  unfold processParam
  rw [if_neg h1, if_neg h2, if_pos hfs]
  refine ⟨?_, ?_, ?_, ?_, ?_⟩
  · intro hU
    simp [makePrior, hU]
  · intro hN hmem
    simp [makePrior, hN, hmem]
  · intro hN hinc
    have hnot : ("inc" : String) ∉ boundedLower0Names := by decide
    simp [makePrior, hN, hinc, hnot]
  · intro hN hmem hinc
    simp [makePrior, hN, hmem, hinc]
  · intro hLU
    simp [makePrior, hLU]

/-- Witness for C5 at the concrete free parameter c0 with a normal
prior: it receives the zero-lower-bounded normal. -/
theorem c5_prior_construction_table_witness :
    ((⟨"c0", "free", "N", 0, 1, 0⟩ : Param).prior = "U" →
      processParam ⟨"c0", "free", "N", 0, 1, 0⟩ = .ok (some ("c0", .uniform 0 1)))
    ∧ ((⟨"c0", "free", "N", 0, 1, 0⟩ : Param).prior = "N" →
        ("c0" : String) ∈ boundedLower0Names →
      processParam ⟨"c0", "free", "N", 0, 1, 0⟩ = .ok (some ("c0", .boundedNormalLower0 0 1)))
    ∧ ((⟨"c0", "free", "N", 0, 1, 0⟩ : Param).prior = "N" → ("c0" : String) = "inc" →
      processParam ⟨"c0", "free", "N", 0, 1, 0⟩ = .ok (some ("c0", .boundedNormalUpper90 0 1)))
    ∧ ((⟨"c0", "free", "N", 0, 1, 0⟩ : Param).prior = "N" →
        ("c0" : String) ∉ boundedLower0Names → ("c0" : String) ≠ "inc" →
      processParam ⟨"c0", "free", "N", 0, 1, 0⟩ = .ok (some ("c0", .normal 0 1)))
    ∧ ((⟨"c0", "free", "N", 0, 1, 0⟩ : Param).prior = "LU" →
      processParam ⟨"c0", "free", "N", 0, 1, 0⟩ = .ok (some ("c0", .expUniform 0 1))) :=
  c5_prior_construction_table ⟨"c0", "free", "N", 0, 1, 0⟩ (Or.inl rfl)

/-- A parameter table that is complete for the uniform-law build except
that the free parameter c3 carries the unrecognized prior kind `X`. -/
def c8Params : List Param :=
  [⟨"Ms", "fixed", "U", 0, 0, 1⟩, ⟨"Mp", "fixed", "U", 0, 0, 1⟩, ⟨"Rs", "fixed", "U", 0, 0, 1⟩,
   ⟨"rp", "fixed", "U", 0, 0, 1⟩, ⟨"a", "fixed", "U", 0, 0, 10⟩,
   ⟨"inc", "fixed", "U", 0, 0, 90⟩, ⟨"ecc", "fixed", "U", 0, 0, 0⟩,
   ⟨"w", "fixed", "U", 0, 0, 90⟩, ⟨"per", "fixed", "U", 0, 0, 4⟩,
   ⟨"c3", "free", "X", 0, 1, 0⟩]

/-- Whether a build result is a model (no exception was raised). -/
def buildOk (r : Except BuildError Model) : Bool :=
  match r with
  | .ok _ => true
  | .error _ => false

/-- Whether the built model bound an attribute of the given name. -/
def modelHasAttr (r : Except BuildError Model) (n : String) : Bool :=
  match r with
  | .ok m => hasParam m.dists n
  | .error _ => false

/-- Counterexample to C8: a table whose free parameter c3 has the
unrecognized prior kind `X` builds successfully — no configuration
error is raised — and the resulting model simply has no distribution
bound for c3. -/
theorem c8_counterexample :
    buildOk (buildStarryModel c8Params ("uniform")) = true
    ∧ modelHasAttr (buildStarryModel c8Params ("uniform")) ("c3") = false := by
  constructor <;> rfl

/-- Claim C8 as amended: a non-fixed, non-independent parameter whose
prior kind is not one of U, N, LU is silently skipped by the
prior-construction loop — no distribution is bound for it and no error
is raised there. -/
theorem c8_amended_unrecognized_prior_skipped (p : Param)
    (hfs : p.ptype = "free" ∨ p.ptype = "shared")
    (hU : p.prior ≠ "U") (hN : p.prior ≠ "N") (hLU : p.prior ≠ "LU") :
    processParam p = .ok none := by
  have h1 : p.ptype ≠ "independent" := by rcases hfs with h | h <;> simp [h]
  have h2 : p.ptype ≠ "fixed" := by rcases hfs with h | h <;> simp [h]
  unfold processParam
  rw [if_neg h1, if_neg h2, if_pos hfs]
  unfold makePrior
  rw [if_neg hU, if_neg hN, if_neg hLU]
  rfl

/-- Witness for the amended C8 at the concrete free parameter c3 with
prior kind `X`. -/
theorem c8_amended_unrecognized_prior_skipped_witness :
    processParam ⟨"c3", "free", "X", 0, 1, 0⟩ = .ok none :=
  c8_amended_unrecognized_prior_skipped ⟨"c3", "free", "X", 0, 1, 0⟩ (Or.inl rfl)
    (by decide) (by decide) (by decide)

lemma bind_ne_error {α β : Type} (x : Except BuildError α) (f : α → Except BuildError β)
    (e : BuildError) (hx : x ≠ .error e) (hf : ∀ a, f a ≠ .error e) :
    (x >>= f) ≠ .error e := by
  cases x with
  | error e2 =>
    intro h
    exact hx (by
      have : (Except.error e2 : Except BuildError β) = .error e := h
      cases this
      rfl)
  | ok a => exact hf a

lemma getDistE_ne_badLimbDark (dists : List (String × PriorDist)) (n law : String) :
    getDistE dists n ≠ .error (.badLimbDark law) := by
  unfold getDistE
  cases getDist dists n <;> simp

lemma getAttrE_ne_badLimbDark (attrs : List (String × ℝ)) (n law : String) :
    getAttrE attrs n ≠ .error (.badLimbDark law) := by
  unfold getAttrE
  cases getAttr attrs n <;> simp

/-- Claim C9: a limb-darkening law selector outside uniform, linear,
quadratic, kipping2013 makes both builds — the differentiable build of
`__init__` and the concrete build of the `fit_dict` setter — raise the
ValueError naming the law; for the four recognized laws that error is
never raised (the stages may only fail on a missing attribute, a
different exception). -/
theorem c9_unrecognized_limb_dark_raises (law : String) :
    (∀ dists, limbDarkInitStage dists law = .error (.badLimbDark law) ↔ law ∉ recognizedLaws)
    ∧ (∀ attrs, buildFitStar attrs law = .error (.badLimbDark law) ↔ law ∉ recognizedLaws) := by
  by_cases hk : law = "kipping2013"
  · subst hk
    constructor
    · intro dists
      simp only [limbDarkInitStage, if_pos rfl]
      have : ¬ ("kipping2013" : String) ∉ recognizedLaws := by decide
      simp only [this, iff_false]
      exact bind_ne_error _ _ _ (getDistE_ne_badLimbDark dists ("u1") _)
        (fun a => bind_ne_error _ _ _ (getDistE_ne_badLimbDark dists ("u2") _)
          (fun b => by simp))
    · intro attrs
      simp only [buildFitStar, if_pos rfl]
      have : ¬ ("kipping2013" : String) ∉ recognizedLaws := by decide
      simp only [this, iff_false]
      exact bind_ne_error _ _ _ (getAttrE_ne_badLimbDark attrs ("u1") _)
        (fun a => bind_ne_error _ _ _ (getAttrE_ne_badLimbDark attrs ("u2") _)
          (fun b => by simp))
  · by_cases hq : law = "quadratic"
    · subst hq
      constructor
      · intro dists
        simp only [limbDarkInitStage, if_neg (by decide : ¬ ("quadratic" : String) = "kipping2013"),
          if_pos rfl]
        have : ¬ ("quadratic" : String) ∉ recognizedLaws := by decide
        simp only [this, iff_false]
        exact bind_ne_error _ _ _ (getDistE_ne_badLimbDark dists ("u1") _)
          (fun a => bind_ne_error _ _ _ (getDistE_ne_badLimbDark dists ("u2") _)
            (fun b => by simp))
      · intro attrs
        simp only [buildFitStar, if_neg (by decide : ¬ ("quadratic" : String) = "kipping2013"),
          if_neg (by decide : ¬ ("quadratic" : String) = "linear"), if_pos rfl]
        have : ¬ ("quadratic" : String) ∉ recognizedLaws := by decide
        simp only [this, iff_false]
        exact bind_ne_error _ _ _ (getAttrE_ne_badLimbDark attrs ("u1") _)
          (fun a => bind_ne_error _ _ _ (getAttrE_ne_badLimbDark attrs ("u2") _)
            (fun b => by simp))
    · by_cases hl : law = "linear"
      · subst hl
        constructor
        · intro dists
          simp only [limbDarkInitStage, if_neg (by decide : ¬ ("linear" : String) = "kipping2013"),
            if_neg (by decide : ¬ ("linear" : String) = "quadratic"), if_pos rfl]
          have : ¬ ("linear" : String) ∉ recognizedLaws := by decide
          simp only [this, iff_false]
          exact bind_ne_error _ _ _ (getDistE_ne_badLimbDark dists ("u1") _) (fun a => by simp)
        · intro attrs
          simp only [buildFitStar, if_neg (by decide : ¬ ("linear" : String) = "kipping2013"),
            if_pos rfl]
          have : ¬ ("linear" : String) ∉ recognizedLaws := by decide
          simp only [this, iff_false]
          exact bind_ne_error _ _ _ (getAttrE_ne_badLimbDark attrs ("u1") _) (fun a => by simp)
      · by_cases hu : law = "uniform"
        · subst hu
          constructor
          · intro dists
            simp [limbDarkInitStage, recognizedLaws]
          · intro attrs
            simp [buildFitStar, recognizedLaws]
        · have hmem : law ∉ recognizedLaws := by
            simp [recognizedLaws, hk, hq, hl, hu]
          constructor
          · intro dists
            simp only [limbDarkInitStage, if_neg hk, if_neg hq, if_neg hl, if_pos hu]
            simp [hmem]
          · intro attrs
            simp only [buildFitStar, if_neg hk, if_neg hl, if_neg hq, if_pos hu]
            simp [hmem]

/-- Claim C3: under the kipping2013 law, with q1 and q2 in (0, 1) held
in the parameters named u1 and u2, the quadratic limb-darkening
coefficients assigned to the stellar map are exactly
`2 * sqrt(q1) * q2` and `sqrt(q1) * (1 - 2 * q2)`. -/
theorem c3_kipping2013_reparameterization (attrs : List (String × ℝ)) (q1 q2 : ℝ)
    (h1 : getAttr attrs ("u1") = some q1) (h2 : getAttr attrs ("u2") = some q2)
    (hq1a : 0 < q1) (hq1b : q1 < 1) (hq2a : 0 < q2) (hq2b : q2 < 1) :
    ∃ s, buildFitStar attrs ("kipping2013") = .ok s
      ∧ s.map1 = 2 * Real.sqrt q1 * q2 ∧ s.map2 = Real.sqrt q1 * (1 - 2 * q2) := by
  refine ⟨⟨if hasAttr attrs ("u2") then 2 else if hasAttr attrs ("u1") then 1 else 0,
    2 * Real.sqrt q1 * q2, Real.sqrt q1 * (1 - 2 * q2)⟩, ?_, rfl, rfl⟩
  simp only [buildFitStar, if_pos rfl, getAttrE, h1, h2]
  rfl

/-- Witness for C3 at the concrete fit point u1 = 1/4, u2 = 1/2. -/
theorem c3_kipping2013_reparameterization_witness :
    ∃ s, buildFitStar [("u1", 1/4), ("u2", 1/2)] ("kipping2013") = .ok s
      ∧ s.map1 = 2 * Real.sqrt (1/4) * (1/2)
      ∧ s.map2 = Real.sqrt (1/4) * (1 - 2 * (1/2)) :=
  c3_kipping2013_reparameterization [("u1", 1/4), ("u2", 1/2)] (1/4) (1/2) rfl rfl
    (by norm_num) (by norm_num) (by norm_num) (by norm_num)

lemma range_one_eq : List.range 1 = [0] := by decide

lemma decode_c012 : decodeCoeffs 1 [("c0", 0), ("c1", 0), ("c2", 5)]
    = ([[0, 0, 5, 0, 0, 0, 0, 0, 0, 0]], [[0, 0, 0, 0, 0, 0]]) := by decide

lemma trim_c012 : flipRows (trimCols [[0, 0, 5, 0, 0, 0, 0, 0, 0, 0]]) = [[5]] := by decide

lemma meanTime_012 : meanTime ([0, 1, 2] : List ℝ) = 1 := by
  simp [meanTime]
  norm_num

lemma polyFluxTrue_c012 : polyFluxTrue [[0, 0, 5, 0, 0, 0, 0, 0, 0, 0]] 1 [0, 1, 2]
    = [5, 5, 5] := by
  unfold polyFluxTrue
  rw [trim_c012, range_one_eq]
  simp only [List.foldl_cons, List.foldl_nil, List.nil_append]
  have hrow : poly1dCoeffs (([[5]] : Table).getD 0 []) = [5] := by decide
  rw [hrow, meanTime_012]
  simp [polyval]

lemma polyFluxFalse_c012 : polyFluxFalse [[0, 0, 5, 0, 0, 0, 0, 0, 0, 0]] 1 [0, 1, 2]
    = [5, 0, 5] := by
  unfold polyFluxFalse
  rw [range_one_eq]
  simp only [List.foldl_cons, List.foldl_nil, List.nil_append]
  rw [meanTime_012]
  simp [List.range_succ, List.getD]
  norm_num

lemma rampFlux_zero_012 : rampFlux [[0, 0, 0, 0, 0, 0]] 1 [0, 1, 2] = [1, 1, 1] := by
  unfold rampFlux
  rw [range_one_eq]
  simp only [List.foldl_cons, List.foldl_nil, List.nil_append]
  simp [rampPiece, List.getD]

/-- Claim C1 (code evaluated at the failing input): the concrete
(`eval=True`) and differentiable (`eval=False`) systematics paths
disagree at the same parameter point. At the single-channel point
c0 = 0, c1 = 0, c2 = 5 with times [0, 1, 2], the concrete path returns
[5, 5, 5] while the differentiable path returns [5, 0, 5]. -/
theorem c1_two_build_variants_disagree :
    sysevalTrue 1 [("c0", 0), ("c1", 0), ("c2", 5)] [0, 1, 2] = [5, 5, 5]
    ∧ sysevalFalse 1 [("c0", 0), ("c1", 0), ("c2", 5)] [0, 1, 2] = [5, 0, 5]
    ∧ sysevalTrue 1 [("c0", 0), ("c1", 0), ("c2", 5)] [0, 1, 2]
        ≠ sysevalFalse 1 [("c0", 0), ("c1", 0), ("c2", 5)] [0, 1, 2] := by
  have ht : sysevalTrue 1 [("c0", 0), ("c1", 0), ("c2", 5)] [0, 1, 2] = [5, 5, 5] := by
    simp only [sysevalTrue, decode_c012]
    simp [polyFluxTrue_c012, rampFlux_zero_012]
  have hf : sysevalFalse 1 [("c0", 0), ("c1", 0), ("c2", 5)] [0, 1, 2] = [5, 0, 5] := by
    simp only [sysevalFalse, decode_c012]
    simp [polyFluxFalse_c012, rampFlux_zero_012]
  refine ⟨ht, hf, ?_⟩
  rw [ht, hf]
  intro h
  simp only [List.cons.injEq] at h
  exact absurd h.2.1 (by norm_num)

/-- Claim C4 (code evaluated at the failing input): trimming is not
restricted to leading all-zero high-degree columns — every all-zero
column is dropped and the surviving coefficients are re-read as
contiguous descending degrees. The single-channel table
c0 = 0, c1 = 0, c2 = 5 evaluates on times [0, 1, 2] to the constant
[5, 5, 5], not to the pure quadratic 5 * (t - mean(t))^2 = [5, 0, 5]. -/
theorem c4_trimming_changes_degree_semantics :
    polyFluxTrue (decodeCoeffs 1 [("c0", 0), ("c1", 0), ("c2", 5)]).1 1 [0, 1, 2] = [5, 5, 5]
    ∧ ([0, 1, 2] : List ℝ).map (fun t => 5 * (t - meanTime [0, 1, 2]) ^ 2) = [5, 0, 5]
    ∧ polyFluxTrue (decodeCoeffs 1 [("c0", 0), ("c1", 0), ("c2", 5)]).1 1 [0, 1, 2]
        ≠ ([0, 1, 2] : List ℝ).map (fun t => 5 * (t - meanTime [0, 1, 2]) ^ 2) := by
  have ht : polyFluxTrue (decodeCoeffs 1 [("c0", 0), ("c1", 0), ("c2", 5)]).1 1 [0, 1, 2]
      = [5, 5, 5] := by
    simp only [decode_c012]
    exact polyFluxTrue_c012
  have hq : ([0, 1, 2] : List ℝ).map (fun t => 5 * (t - meanTime [0, 1, 2]) ^ 2)
      = [5, 0, 5] := by
    rw [meanTime_012]
    simp
    norm_num
  refine ⟨ht, hq, ?_⟩
  rw [ht, hq]
  intro h
  simp only [List.cons.injEq] at h
  exact absurd h.2.1 (by norm_num)

lemma decode_c0_zero : decodeCoeffs 1 [("c0", 0)]
    = ([List.replicate 10 0], [List.replicate 6 0]) := by decide

lemma trim_zero_table : flipRows (trimCols [List.replicate 10 (0 : ℚ)]) = [[]] := by decide

lemma polyFluxTrue_zero (time : List ℝ) :
    polyFluxTrue [List.replicate 10 0] 1 time = time.map (fun _ => 0) := by
  unfold polyFluxTrue
  rw [trim_zero_table, range_one_eq]
  simp only [List.foldl_cons, List.foldl_nil, List.nil_append]
  have hrow : poly1dCoeffs (([[]] : Table).getD 0 []) = [0] := by decide
  rw [hrow]
  simp [polyval]

lemma polyFluxFalse_zero (time : List ℝ) :
    polyFluxFalse [List.replicate 10 0] 1 time = time.map (fun _ => 0) := by
  unfold polyFluxFalse
  rw [range_one_eq]
  simp only [List.foldl_cons, List.foldl_nil, List.nil_append]
  have hrow : ([List.replicate 10 (0 : ℚ)] : Table).getD 0 [] = [0, 0, 0, 0, 0, 0, 0, 0, 0, 0] := by
    decide
  simp only [hrow]
  simp [List.range_succ, List.getD]

lemma rampFlux_zero (time : List ℝ) :
    rampFlux [List.replicate 6 0] 1 time = time.map (fun _ => 1) := by
  unfold rampFlux
  rw [range_one_eq]
  simp only [List.foldl_cons, List.foldl_nil, List.nil_append]
  have hrow : ([List.replicate 6 (0 : ℚ)] : Table).getD 0 [] = [0, 0, 0, 0, 0, 0] := by decide
  simp only [hrow]
  simp [rampPiece, List.getD]

lemma zipWith_mul_maps (l : List ℝ) (c d : ℝ) :
    List.zipWith (fun a b => a * b) (l.map fun _ => c) (l.map fun _ => d)
      = l.map (fun _ => c * d) := by
  induction l with
  | nil => rfl
  | cons a t ih => simp [ih]

lemma map_const_zero (l : List ℝ) : l.map (fun _ => (0 : ℝ)) = List.replicate l.length 0 := by
  induction l with
  | nil => rfl
  | cons a t ih => simp [ih, List.replicate_succ]

lemma zipWith_mul_replicate_zero (l1 : List ℝ) (n : ℕ) :
    List.zipWith (fun a b => a * b) l1 (List.replicate n 0)
      = List.replicate (min l1.length n) 0 := by
  induction l1 generalizing n with
  | nil => simp
  | cons a t ih =>
    cases n with
    | zero => simp
    | succ m => simp [List.replicate_succ, ih, Nat.succ_min_succ]

/-- Counterexample to C7: in the single-channel scenario with every
systematics coefficient zero, the systematics factor of the concrete
path is identically 0, not 1, so the composite flux is the zero array
rather than the astrophysical flux (here the constant array
[1, 1, 1]). -/
theorem c7_counterexample :
    sysevalTrue 1 [("c0", 0)] [0, 1, 2] = [0, 0, 0]
    ∧ evalModel [1, 1, 1] (sysevalTrue 1 [("c0", 0)] [0, 1, 2]) = [0, 0, 0]
    ∧ evalModel [1, 1, 1] (sysevalTrue 1 [("c0", 0)] [0, 1, 2]) ≠ [1, 1, 1] := by
  have hs : sysevalTrue 1 [("c0", 0)] [0, 1, 2] = [0, 0, 0] := by
    unfold sysevalTrue
    rw [decode_c0_zero]
    simp only []
    rw [polyFluxTrue_zero, rampFlux_zero, zipWith_mul_maps]
    simp
  have he : evalModel [1, 1, 1] (sysevalTrue 1 [("c0", 0)] [0, 1, 2]) = [0, 0, 0] := by
    rw [hs]
    simp [evalModel]
  refine ⟨hs, he, ?_⟩
  rw [he]
  intro h
  simp only [List.cons.injEq] at h
  exact absurd h.1 (by norm_num)

/-- Claim C7 as amended: with all systematics coefficients zero the ramp
factor is identically 1 but the polynomial factor is identically 0, so
the systematics flux of both evaluation paths is the zero array and the
composite total flux is identically 0 — not the pure transit-model
flux. -/
theorem c7_amended_zero_coeffs_zero_total (fitDict : List (String × ℚ))
    (time physflux : List ℝ)
    (hzero : decodeCoeffs 1 fitDict = ([List.replicate 10 0], [List.replicate 6 0])) :
    rampFlux (decodeCoeffs 1 fitDict).2 1 time = time.map (fun _ => 1)
    ∧ sysevalTrue 1 fitDict time = time.map (fun _ => 0)
    ∧ sysevalFalse 1 fitDict time = time.map (fun _ => 0)
    ∧ evalModel physflux (sysevalTrue 1 fitDict time)
        = List.replicate (min physflux.length time.length) 0 := by
  have hr : rampFlux (decodeCoeffs 1 fitDict).2 1 time = time.map (fun _ => 1) := by
    rw [hzero]
    exact rampFlux_zero time
  have hT : sysevalTrue 1 fitDict time = time.map (fun _ => 0) := by
    unfold sysevalTrue
    rw [hzero]
    simp only []
    rw [polyFluxTrue_zero, rampFlux_zero, zipWith_mul_maps]
    simp
  have hF : sysevalFalse 1 fitDict time = time.map (fun _ => 0) := by
    unfold sysevalFalse
    rw [hzero]
    simp only []
    rw [polyFluxFalse_zero, rampFlux_zero, zipWith_mul_maps]
    simp
  refine ⟨hr, hT, hF, ?_⟩
  unfold evalModel
  rw [hT, map_const_zero, zipWith_mul_replicate_zero]

/-- Witness for the amended C7 at the concrete scenario: one channel,
the fitted point c0 = 0, times [0, 1, 2], astrophysical flux
[1, 1, 1]. -/
theorem c7_amended_zero_coeffs_zero_total_witness :
    rampFlux (decodeCoeffs 1 [("c0", 0)]).2 1 ([0, 1, 2] : List ℝ)
        = ([0, 1, 2] : List ℝ).map (fun _ => 1)
    ∧ sysevalTrue 1 [("c0", 0)] ([0, 1, 2] : List ℝ) = ([0, 1, 2] : List ℝ).map (fun _ => 0)
    ∧ sysevalFalse 1 [("c0", 0)] ([0, 1, 2] : List ℝ) = ([0, 1, 2] : List ℝ).map (fun _ => 0)
    ∧ evalModel [1, 1, 1] (sysevalTrue 1 [("c0", 0)] ([0, 1, 2] : List ℝ))
        = List.replicate (min ([1, 1, 1] : List ℝ).length ([0, 1, 2] : List ℝ).length) 0 :=
  c7_amended_zero_coeffs_zero_total [("c0", 0)] [0, 1, 2] [1, 1, 1] (by decide)
